import Mathlib

/-!
Shallow embedding of the Sutter MP-285 serial driver (`sutter285.py`).

Bytes on the serial wire are modelled as `List Nat` (each entry a byte
value).  Micron positions are modelled as rationals (`ℚ`), standing for
Python numbers; microstep wire values are `Int`.  Python-2 specifics that
this code relies on are embedded explicitly:

* `int(x)` on a number truncates toward zero (`ratTrunc`);
* `np.array([ints]) / int` performs integer floor division (`Int.fdiv`);
* `struct.pack('lll', ...)` on the target platform packs three 4-byte
  little-endian signed integers, raising `struct.error` when an argument
  does not fit (modelled as `SutterError.rangeError`);
* `struct.unpack('lll', msg[1:13])` requires exactly 12 bytes, raising
  `struct.error` when the reply is shorter than 13 bytes (modelled as
  `SutterError.protocolError`).

Serial I/O is made explicit: each operation takes the device's reply
bytes as an argument and returns the bytes it wrote, the CSV rows it
appended, the new session state and an optional raised error.
-/

/-- Python `int()` truncation toward zero of a rational. -/
def ratTrunc (q : ℚ) : Int := q.num.tdiv q.den

/-- Floor of a rational as an integer, via floor division of numerator by
denominator. -/
def ratFloorI (q : ℚ) : Int := q.num.fdiv q.den

/-- Python 2 `round` (half away from zero), as the spec's `round`. -/
def specRound (q : ℚ) : Int :=
  if 0 ≤ q then ratFloorI (q + 1/2) else -(ratFloorI (-q + 1/2))

/-- A signed 4-byte value fits the wire format (`struct.pack 'l'` on the
target platform). -/
def in32 (n : Int) : Prop := -2147483648 ≤ n ∧ n < 2147483648

instance (n : Int) : Decidable (in32 n) := by unfold in32; infer_instance

/-- Little-endian 4-byte two's-complement encoding of an integer, as
`struct.pack 'l'` lays it out. -/
def toLE4 (n : Int) : List Nat :=
  [(n % 4294967296).toNat % 256,
   (n % 4294967296).toNat / 256 % 256,
   (n % 4294967296).toNat / 65536 % 256,
   (n % 4294967296).toNat / 16777216 % 256]

/-- Little-endian 4-byte two's-complement decoding, as `struct.unpack 'l'`
reads four wire bytes. -/
def fromLE4signed (b0 b1 b2 b3 : Nat) : Int :=
  if b0 + 256 * b1 + 65536 * b2 + 16777216 * b3 < 2147483648
  then (b0 + 256 * b1 + 65536 * b2 + 16777216 * b3 : Nat)
  else (b0 + 256 * b1 + 65536 * b2 + 16777216 * b3 : Nat) - 4294967296

/-- Errors the driver can raise, following the spec's taxonomy.
`protocolError` stands for `struct.error` on unpacking a short reply,
`rangeError` for `struct.error` on packing an out-of-range value,
`logWriteError` for the `TypeError` raised by `open(None, 'ab')`,
`timeoutError` and `unsupported` are spec-side vocabulary. -/
inductive SutterError where
  | protocolError
  | rangeError
  | timeoutError
  | logWriteError
  | unsupported
deriving DecidableEq, Repr

instance {ε α : Type} [DecidableEq ε] [DecidableEq α] : DecidableEq (Except ε α) := fun x y =>
  match x, y with
  | .ok a, .ok b =>
    match decEq a b with
    | isTrue h => isTrue (h ▸ rfl)
    | isFalse h => isFalse fun hc => h (Except.ok.inj hc)
  | .error a, .error b =>
    match decEq a b with
    | isTrue h => isTrue (h ▸ rfl)
    | isFalse h => isFalse fun hc => h (Except.error.inj hc)
  | .ok _, .error _ => isFalse fun hc => Except.noConfusion hc
  | .error _, .ok _ => isFalse fun hc => Except.noConfusion hc

/-- One CSV row beyond the header: event name and optional position. -/
structure LogRow where
  event : String
  position : Option (ℚ × ℚ × ℚ)
deriving DecidableEq, Repr

/-- Mutable fields of the `Sutter` object. -/
structure SutterState where
  manipulator : Option Nat
  position : Option (Int × Int × Int)
  stepmult : Int
  log : Option String
deriving DecidableEq, Repr

/-- Result of one driver operation: bytes written to the serial port, CSV
rows appended to the log, the state afterwards, and the raised error if
any. -/
structure StepResult where
  written : List Nat
  logged : List LogRow
  state : SutterState
  error : Option SutterError
deriving DecidableEq, Repr

/-- `DecodeGetPositionReply`: `struct.unpack('lll', msg[1:13])` needs 12
bytes, so replies shorter than 13 bytes raise; byte 0 is the device tag,
bytes 1..12 are three little-endian int32 values, each divided by
`stepmult` with Python-2 integer (floor) division. -/
def decodeGetPositionReply (msg : List Nat) (sm : Int) :
    Except SutterError (Int × Int × Int) :=
  if 13 ≤ msg.length then
    .ok ((fromLE4signed (msg.getD 1 0) (msg.getD 2 0) (msg.getD 3 0) (msg.getD 4 0)).fdiv sm,
         (fromLE4signed (msg.getD 5 0) (msg.getD 6 0) (msg.getD 7 0) (msg.getD 8 0)).fdiv sm,
         (fromLE4signed (msg.getD 9 0) (msg.getD 10 0) (msg.getD 11 0) (msg.getD 12 0)).fdiv sm)
  else .error .protocolError

/-- `EncodeSetPosition`: `'M' + struct.pack('lll', int(x*sm), int(y*sm),
int(z*sm))`; `int()` truncates toward zero and `struct.pack` raises when a
value does not fit in a signed 32-bit integer (before anything is
written). `'M'` is byte 77. -/
def encodeSetPosition (pos : ℚ × ℚ × ℚ) (sm : Int) :
    Except SutterError (List Nat) :=
  if in32 (ratTrunc (pos.1 * sm)) ∧ in32 (ratTrunc (pos.2.1 * sm)) ∧
     in32 (ratTrunc (pos.2.2 * sm)) then
    .ok (77 :: (toLE4 (ratTrunc (pos.1 * sm)) ++ toLE4 (ratTrunc (pos.2.1 * sm)) ++
                toLE4 (ratTrunc (pos.2.2 * sm))))
  else .error .rangeError

/-- Round-trip of the spec's testable property: encode a micron triple as
a set-position frame and decode that frame as a get-position reply (its
leading `'M'` playing the discarded tag byte). -/
def roundTrip (pos : ℚ × ℚ × ℚ) (sm : Int) : Except SutterError (Int × Int × Int) :=
  (encodeSetPosition pos sm).bind (fun frame => decodeGetPositionReply frame sm)

/-- `Sutter.get_position` (`Query`): writes the single command byte `'C'`
(67), reads a reply, unpacks bytes 1..12 (raising on a short reply before
`self.position` is assigned), assigns the decoded position, then appends a
`get_pos` CSV row — which raises a `TypeError` when `self.log` is `None`
(no logfile was configured).  The device reply is passed in explicitly. -/
def get_position (s : SutterState) (reply : List Nat) : StepResult :=
  match decodeGetPositionReply reply s.stepmult with
  | .error e => { written := [67], logged := [], state := s, error := some e }
  | .ok p =>
    let s' : SutterState := { s with position := some p }
    match s.log with
    | none => { written := [67], logged := [], state := s', error := some .logWriteError }
    | some _ =>
      { written := [67],
        logged := [⟨"get_pos", some ((p.1 : ℚ), (p.2.1 : ℚ), (p.2.2 : ℚ))⟩],
        state := s', error := none }

/-- `Sutter.set_position` (`Move`): packs the frame (raising `rangeError`
before anything is written when a converted value does not fit in 32
bits), writes it, appends a `set_pos` CSV row (raising when `self.log` is
`None`), then drains the device's acknowledgment with a blocking
`readline` whose result is discarded (`ack`).  `self.position` is never
assigned. -/
def set_position (s : SutterState) (pos : ℚ × ℚ × ℚ) (ack : List Nat) : StepResult :=
  match encodeSetPosition pos s.stepmult with
  | .error e => { written := [], logged := [], state := s, error := some e }
  | .ok frame =>
    match s.log with
    | none => { written := frame, logged := [], state := s, error := some .logWriteError }
    | some _ =>
      let _ := ack
      { written := frame, logged := [⟨"set_pos", some pos⟩], state := s, error := none }

/-- `Sutter.set_active_manipulator`: the body is `pass` — no bytes are
written, nothing is logged, no field changes and no error or "not
supported" result is produced. -/
def set_active_manipulator (s : SutterState) (manipulator : Int) : StepResult :=
  let _ := manipulator
  { written := [], logged := [], state := s, error := none }

/-- `Sutter.__init__` (`Open`), after a successful serial open: when
`logfile` is a string it becomes `self.log` and the CSV header plus a
`start` row (empty position) are written; otherwise `self.log` stays
`None` and only a warning object is created.  Then `manipulator` and
`position` are cleared, `stepmult` is stored, and an initial
`get_position` query runs.  The interactive overwrite prompt is external
policy and the resulting path is the `logfile` argument. -/
def Sutter.init (logfile : Option String) (stepmult : Int) (reply : List Nat) :
    StepResult :=
  let s0 : SutterState :=
    { manipulator := none, position := none, stepmult := stepmult, log := logfile }
  let startRows : List LogRow :=
    match logfile with
    | some _ => [⟨"start", none⟩]
    | none => []
  let r := get_position s0 reply
  { written := r.written, logged := startRows ++ r.logged,
    state := r.state, error := r.error }

/-- `Open` followed by one `Move`: the CSV rows beyond the header that the
two calls append, in order. -/
def openThenMove (logfile : String) (reply : List Nat) (pos : ℚ × ℚ × ℚ)
    (ack : List Nat) (stepmult : Int) : List LogRow :=
  let r1 := Sutter.init (some logfile) stepmult reply
  let r2 := set_position r1.state pos ack
  r1.logged ++ r2.logged

/-- A connected session state used to instantiate general theorems. -/
def demoState : SutterState :=
  { manipulator := none, position := some (100, 200, 300), stepmult := 16,
    log := some "log.csv" }

/-! ## Codec lemmas -/

theorem fromLE4_toLE4 (n : Int) (h : in32 n) :
    fromLE4signed ((toLE4 n).getD 0 0) ((toLE4 n).getD 1 0)
      ((toLE4 n).getD 2 0) ((toLE4 n).getD 3 0) = n := by
  unfold in32 at h
  unfold toLE4 fromLE4signed
  simp only [List.getD_cons_zero, List.getD_cons_succ]
  split <;> omega

theorem decode_short (msg : List Nat) (sm : Int) (h : msg.length ≤ 12) :
    decodeGetPositionReply msg sm = .error .protocolError := by
  unfold decodeGetPositionReply
  rw [if_neg (by omega)]

theorem decode_cons (t a0 a1 a2 a3 b0 b1 b2 b3 c0 c1 c2 c3 : Nat)
    (rest : List Nat) (sm : Int) :
    decodeGetPositionReply
        (t :: a0 :: a1 :: a2 :: a3 :: b0 :: b1 :: b2 :: b3 :: c0 :: c1 :: c2 :: c3 :: rest) sm
      = .ok ((fromLE4signed a0 a1 a2 a3).fdiv sm,
             (fromLE4signed b0 b1 b2 b3).fdiv sm,
             (fromLE4signed c0 c1 c2 c3).fdiv sm) := by
  unfold decodeGetPositionReply
  rw [if_pos (by simp)]
  rfl

theorem decode_long (msg : List Nat) (sm : Int) (h : 13 ≤ msg.length) :
    ∃ p, decodeGetPositionReply msg sm = .ok p := by
  unfold decodeGetPositionReply
  rw [if_pos h]
  exact ⟨_, rfl⟩

theorem encode_ok (pos : ℚ × ℚ × ℚ) (sm : Int)
    (hx : in32 (ratTrunc (pos.1 * sm))) (hy : in32 (ratTrunc (pos.2.1 * sm)))
    (hz : in32 (ratTrunc (pos.2.2 * sm))) :
    encodeSetPosition pos sm
      = .ok (77 :: (toLE4 (ratTrunc (pos.1 * sm)) ++ toLE4 (ratTrunc (pos.2.1 * sm)) ++
                    toLE4 (ratTrunc (pos.2.2 * sm)))) := by
  unfold encodeSetPosition
  exact if_pos ⟨hx, hy, hz⟩

theorem encode_err (pos : ℚ × ℚ × ℚ) (sm : Int)
    (h : ¬ (in32 (ratTrunc (pos.1 * sm)) ∧ in32 (ratTrunc (pos.2.1 * sm)) ∧
            in32 (ratTrunc (pos.2.2 * sm)))) :
    encodeSetPosition pos sm = .error .rangeError := by
  unfold encodeSetPosition
  exact if_neg h

theorem decode_toLE4_frame (a b c sm : Int)
    (ha : in32 a) (hb : in32 b) (hc : in32 c) :
    decodeGetPositionReply (77 :: (toLE4 a ++ toLE4 b ++ toLE4 c)) sm
      = .ok (a.fdiv sm, b.fdiv sm, c.fdiv sm) := by
  have ha4 := fromLE4_toLE4 a ha
  have hb4 := fromLE4_toLE4 b hb
  have hc4 := fromLE4_toLE4 c hc
  simp only [toLE4, List.getD_cons_zero, List.getD_cons_succ] at ha4 hb4 hc4
  simp only [toLE4, List.cons_append, List.nil_append]
  rw [decode_cons]
  rw [ha4, hb4, hc4]

theorem roundTrip_eq (qx qy qz : ℚ) (sm : Int)
    (hx : in32 (ratTrunc (qx * sm))) (hy : in32 (ratTrunc (qy * sm)))
    (hz : in32 (ratTrunc (qz * sm))) :
    roundTrip (qx, qy, qz) sm
      = .ok ((ratTrunc (qx * sm)).fdiv sm, (ratTrunc (qy * sm)).fdiv sm,
             (ratTrunc (qz * sm)).fdiv sm) := by
  unfold roundTrip
  rw [encode_ok (qx, qy, qz) sm hx hy hz]
  exact decode_toLE4_frame _ _ _ sm hx hy hz

theorem ratTrunc_intCast (n : Int) : ratTrunc (n : ℚ) = n := by
  unfold ratTrunc
  simp [Rat.intCast_num, Rat.intCast_den]

theorem ratTrunc_intCast_mul (x sm : Int) :
    ratTrunc ((x : ℚ) * (sm : ℚ)) = x * sm := by
  rw [← Int.cast_mul, ratTrunc_intCast]

/-- C3: a reply of 0..12 bytes makes `DecodeGetPositionReply` raise
`ProtocolError` (the `struct.error` of unpacking fewer than 12 payload
bytes), and a reply of at least 13 bytes decodes bytes 1..12 as three
little-endian signed 4-byte integers, each divided by `stepmult` with the
code's integer division. -/
theorem c3_short_reply_protocol_error (msg : List Nat) (sm : Int)
    (t a0 a1 a2 a3 b0 b1 b2 b3 c0 c1 c2 c3 : Nat) (rest : List Nat)
    (h : msg.length ≤ 12) :
    decodeGetPositionReply msg sm = .error .protocolError ∧
    decodeGetPositionReply
        (t :: a0 :: a1 :: a2 :: a3 :: b0 :: b1 :: b2 :: b3 :: c0 :: c1 :: c2 :: c3 :: rest) sm
      = .ok ((fromLE4signed a0 a1 a2 a3).fdiv sm,
             (fromLE4signed b0 b1 b2 b3).fdiv sm,
             (fromLE4signed c0 c1 c2 c3).fdiv sm) :=
  ⟨decode_short msg sm h, decode_cons t a0 a1 a2 a3 b0 b1 b2 b3 c0 c1 c2 c3 rest sm⟩

/-- Witness for C3 at a 3-byte truncated reply and the spec's fixture
reply `'D'` + int32(58000, 65728, 144000) + `\r` with stepmult 16. -/
theorem c3_witness :
    decodeGetPositionReply [68, 1, 2] 16 = .error .protocolError ∧
    decodeGetPositionReply [68, 144, 226, 0, 0, 192, 0, 1, 0, 128, 50, 2, 0, 13] 16
      = .ok (3625, 4108, 9000) := by
  have h := c3_short_reply_protocol_error [68, 1, 2] 16
    68 144 226 0 0 192 0 1 0 128 50 2 0 [13] (by decide)
  refine ⟨h.1, ?_⟩
  rw [h.2]
  decide

/-- C5 counterexample: with an empty reply (what the serial `readline`
returns when the device sends nothing before the timeout), `get_position`
does not raise `TimeoutError`. -/
theorem c5_counterexample :
    (get_position demoState []).error ≠ some SutterError.timeoutError := by decide

/-- C5 amended: when the reply is empty or partial (fewer than 13 bytes,
as after a timeout), `get_position` raises the low-level unpacking error
(`ProtocolError` for `struct.error`), not `TimeoutError`. -/
theorem c5_timeout_raises_unpack_error (s : SutterState) (reply : List Nat)
    (h : reply.length ≤ 12) :
    (get_position s reply).error = some SutterError.protocolError ∧
    some SutterError.protocolError ≠ some SutterError.timeoutError := by
  constructor
  · unfold get_position
    rw [decode_short reply s.stepmult h]
  · simp

/-- Witness for C5 amended at `demoState` and the empty reply. -/
theorem c5_witness :
    (get_position demoState []).error = some SutterError.protocolError ∧
    some SutterError.protocolError ≠ some SutterError.timeoutError :=
  c5_timeout_raises_unpack_error demoState [] (by decide)

/-- C6: a `Query` whose reply is empty or partial (fewer than 13 bytes,
as after a timeout) raises before `self.position` is assigned, so the
cached position — indeed the whole state — is unchanged. -/
theorem c6_timeout_preserves_cache (s : SutterState) (reply : List Nat)
    (h : reply.length ≤ 12) :
    (get_position s reply).state.position = s.position ∧
    (get_position s reply).state = s := by
  have hs : (get_position s reply).state = s := by
    unfold get_position
    rw [decode_short reply s.stepmult h]
  exact ⟨by rw [hs], hs⟩

/-- Witness for C6 at `demoState` (cached position `(100, 200, 300)`)
and the empty reply. -/
theorem c6_witness :
    (get_position demoState []).state.position = demoState.position ∧
    (get_position demoState []).state = demoState :=
  c6_timeout_preserves_cache demoState [] (by decide)

/-- C7: when a converted microstep value does not fit in a signed 32-bit
integer, `set_position` raises `RangeError` (the `struct.error` of
`struct.pack`) with no bytes written, nothing logged and the state
unchanged — the value is never silently truncated. -/
theorem c7_range_error_before_write (s : SutterState) (pos : ℚ × ℚ × ℚ)
    (ack : List Nat)
    (h : ¬ (in32 (ratTrunc (pos.1 * s.stepmult)) ∧ in32 (ratTrunc (pos.2.1 * s.stepmult)) ∧
            in32 (ratTrunc (pos.2.2 * s.stepmult)))) :
    set_position s pos ack
      = { written := [], logged := [], state := s, error := some .rangeError } := by
  unfold set_position
  rw [encode_err pos s.stepmult h]

/-- Witness for C7: at stepmult 16, micron value 268435456 converts to
2^32, which overflows int32. -/
theorem c7_witness :
    set_position demoState (((268435456 : Int) : ℚ), ((0 : Int) : ℚ), ((0 : Int) : ℚ)) []
      = { written := [], logged := [], state := demoState, error := some .rangeError } := by
  apply c7_range_error_before_write
  intro hc
  have h1 := hc.1
  rw [show ((demoState.stepmult : Int) : ℚ) = ((16 : Int) : ℚ) from rfl] at h1
  rw [ratTrunc_intCast_mul] at h1
  exact absurd h1 (by decide)

/-- C8: `set_position` never assigns `self.position` (or any other
field): after any `Move` — successful or not — the state, and with it the
cached position, equals its value before the call. -/
theorem c8_move_preserves_cached_position (s : SutterState) (pos : ℚ × ℚ × ℚ)
    (ack : List Nat) :
    (set_position s pos ack).state.position = s.position ∧
    (set_position s pos ack).state = s := by
  have hs : (set_position s pos ack).state = s := by
    unfold set_position
    split
    · rfl
    · split <;> rfl
  exact ⟨by rw [hs], hs⟩

/-- C9 counterexample: `set_active_manipulator` returns success (`error =
none`), not the explicit "not supported" result the claim asserts. -/
theorem c9_counterexample :
    (set_active_manipulator demoState 1).error ≠ some SutterError.unsupported := by decide

/-- C9 amended: `set_active_manipulator` performs no device I/O and logs
nothing, but silently succeeds as a no-op (it returns `None`), rather
than returning an explicit "not supported" result. -/
theorem c9_silent_noop (s : SutterState) (m : Int) :
    set_active_manipulator s m
      = { written := [], logged := [], state := s, error := none } := rfl

/-- C10: constructing with `logfile = None` leaves `self.log` as `None`
(only a `Warning` object is created, which raises nothing), and the
initial `get_position` issued at the end of `__init__` then fails opening
`None` for appending — after the `'C'` get-position command byte has
already been written to the serial port and the cache updated. -/
theorem c10_none_logfile_init_raises (sm : Int) (reply : List Nat)
    (h : 13 ≤ reply.length) :
    (Sutter.init none sm reply).error = some SutterError.logWriteError ∧
    (Sutter.init none sm reply).state.log = none ∧
    (Sutter.init none sm reply).written = [67] ∧
    (Sutter.init none sm reply).logged = [] := by
  obtain ⟨p, hp⟩ := decode_long reply sm h
  unfold Sutter.init get_position
  dsimp only
  rw [hp]
  exact ⟨rfl, rfl, rfl, rfl⟩

/-- Witness for C10 at a well-formed 14-byte reply. -/
theorem c10_witness :
    (Sutter.init none 16 [68, 0, 0, 0, 0, 0, 0, 0, 0, 0, 0, 0, 0, 13]).error
      = some SutterError.logWriteError ∧
    (Sutter.init none 16 [68, 0, 0, 0, 0, 0, 0, 0, 0, 0, 0, 0, 0, 13]).state.log = none ∧
    (Sutter.init none 16 [68, 0, 0, 0, 0, 0, 0, 0, 0, 0, 0, 0, 0, 13]).written = [67] ∧
    (Sutter.init none 16 [68, 0, 0, 0, 0, 0, 0, 0, 0, 0, 0, 0, 0, 13]).logged = [] :=
  c10_none_logfile_init_raises 16 _ (by decide)

theorem in32_trunc_intCast_mul (x sm : Int) (h : in32 (x * sm)) :
    in32 (ratTrunc ((x : ℚ) * (sm : ℚ))) := by
  rw [ratTrunc_intCast_mul]
  exact h

/-- C1 counterexample: at the non-integer micron value 1/2 with stepmult
16, the round-trip yields 0 (the encode is exact but the decode's integer
division floors 8/16 to 0), while the claim's `round(x*stepmult)/stepmult`
is 1/2. -/
theorem c1_counterexample :
    roundTrip ((1:ℚ)/2, 0, 0) 16 = .ok (0, 0, 0) ∧
    ((0 : Int) : ℚ) ≠ ((specRound ((1:ℚ)/2 * ((16:Int):ℚ)) : Int) : ℚ) / ((16:Int):ℚ) := by
  have h8 : ratTrunc ((1:ℚ)/2 * ((16:Int):ℚ)) = 8 := by
    unfold ratTrunc; norm_num
  have h0 : ratTrunc ((0:ℚ) * ((16:Int):ℚ)) = 0 := by
    unfold ratTrunc; norm_num
  constructor
  · rw [roundTrip_eq ((1:ℚ)/2) 0 0 16 (by rw [h8]; decide) (by rw [h0]; decide)
        (by rw [h0]; decide)]
    rw [h8, h0]
    decide
  · have hs : specRound ((1:ℚ)/2 * ((16:Int):ℚ)) = 8 := by
      unfold specRound ratFloorI
      rw [if_pos (by norm_num)]
      norm_num
      decide
    rw [hs]
    norm_num

/-- C1 amended: within int32 range the round-trip of a rational micron
triple is `fdiv (trunc (q*stepmult)) stepmult` per axis — truncation on
encode and floor division on decode — and on integer triples this is the
identity. -/
theorem c1_roundtrip (qx qy qz : ℚ) (x y z sm : Int) (hsm : sm ≠ 0)
    (hqx : in32 (ratTrunc (qx * sm))) (hqy : in32 (ratTrunc (qy * sm)))
    (hqz : in32 (ratTrunc (qz * sm)))
    (hx : in32 (x * sm)) (hy : in32 (y * sm)) (hz : in32 (z * sm)) :
    roundTrip (qx, qy, qz) sm
      = .ok ((ratTrunc (qx * sm)).fdiv sm, (ratTrunc (qy * sm)).fdiv sm,
             (ratTrunc (qz * sm)).fdiv sm) ∧
    roundTrip ((x : ℚ), (y : ℚ), (z : ℚ)) sm = .ok (x, y, z) := by
  refine ⟨roundTrip_eq qx qy qz sm hqx hqy hqz, ?_⟩
  rw [roundTrip_eq (x : ℚ) (y : ℚ) (z : ℚ) sm (in32_trunc_intCast_mul x sm hx)
      (in32_trunc_intCast_mul y sm hy) (in32_trunc_intCast_mul z sm hz)]
  rw [ratTrunc_intCast_mul, ratTrunc_intCast_mul, ratTrunc_intCast_mul]
  rw [Int.mul_fdiv_cancel x hsm, Int.mul_fdiv_cancel y hsm, Int.mul_fdiv_cancel z hsm]

/-- Witness for C1 amended at the spec's fixture triple and stepmult 16. -/
theorem c1_witness :
    roundTrip (((3625:Int):ℚ), ((4108:Int):ℚ), ((9000:Int):ℚ)) 16 = .ok (3625, 4108, 9000) :=
  (c1_roundtrip ((3625:Int):ℚ) ((4108:Int):ℚ) ((9000:Int):ℚ) 3625 4108 9000 16
    (by decide)
    (in32_trunc_intCast_mul 3625 16 (by decide))
    (in32_trunc_intCast_mul 4108 16 (by decide))
    (in32_trunc_intCast_mul 9000 16 (by decide))
    (by decide) (by decide) (by decide)).2

/-- C2 counterexample: at micron value 3/5 with stepmult 16 the code
packs `int(9.6) = 9` (truncation toward zero), not the claim's
`round(9.6) = 10`, so the frame differs from the claimed one. -/
theorem c2_counterexample :
    encodeSetPosition ((3:ℚ)/5, 0, 0) 16
      ≠ .ok (77 :: (toLE4 (specRound ((3:ℚ)/5 * ((16:Int):ℚ))) ++
                    toLE4 (specRound ((0:ℚ) * ((16:Int):ℚ))) ++
                    toLE4 (specRound ((0:ℚ) * ((16:Int):ℚ))))) := by
  have ht : ratTrunc ((3:ℚ)/5 * ((16:Int):ℚ)) = 9 := by
    unfold ratTrunc; norm_num; decide
  have h0 : ratTrunc ((0:ℚ) * ((16:Int):ℚ)) = 0 := by
    unfold ratTrunc; norm_num
  have hs : specRound ((3:ℚ)/5 * ((16:Int):ℚ)) = 10 := by
    unfold specRound ratFloorI
    rw [if_pos (by norm_num)]
    norm_num
    decide
  have hs0 : specRound ((0:ℚ) * ((16:Int):ℚ)) = 0 := by
    unfold specRound ratFloorI
    rw [if_pos (by norm_num)]
    norm_num
    decide
  rw [encode_ok ((3:ℚ)/5, 0, 0) 16 (by rw [show ((3:ℚ)/5, (0:ℚ), (0:ℚ)).1 = (3:ℚ)/5 from rfl, ht]; decide)
      (by rw [show ((3:ℚ)/5, (0:ℚ), (0:ℚ)).2.1 = (0:ℚ) from rfl, h0]; decide)
      (by rw [show ((3:ℚ)/5, (0:ℚ), (0:ℚ)).2.2 = (0:ℚ) from rfl, h0]; decide)]
  dsimp only
  rw [ht, h0, hs, hs0]
  decide

/-- C2 amended: the frame is `'M'` (77) followed by three little-endian
4-byte signed integers equal to `trunc(axis*stepmult)` (Python `int()`,
truncation toward zero — not `round`); on the integer fixture
`(3625, 4108, 9000)` with stepmult 16 this gives int32 values
58000, 65728, 144000. -/
theorem c2_frame_layout (pos : ℚ × ℚ × ℚ) (sm : Int)
    (hx : in32 (ratTrunc (pos.1 * sm))) (hy : in32 (ratTrunc (pos.2.1 * sm)))
    (hz : in32 (ratTrunc (pos.2.2 * sm))) :
    encodeSetPosition pos sm
      = .ok (77 :: (toLE4 (ratTrunc (pos.1 * sm)) ++ toLE4 (ratTrunc (pos.2.1 * sm)) ++
                    toLE4 (ratTrunc (pos.2.2 * sm)))) ∧
    encodeSetPosition (((3625:Int):ℚ), ((4108:Int):ℚ), ((9000:Int):ℚ)) 16
      = .ok [77, 144, 226, 0, 0, 192, 0, 1, 0, 128, 50, 2, 0] := by
  refine ⟨encode_ok pos sm hx hy hz, ?_⟩
  rw [encode_ok (((3625:Int):ℚ), ((4108:Int):ℚ), ((9000:Int):ℚ)) 16
      (in32_trunc_intCast_mul 3625 16 (by decide))
      (in32_trunc_intCast_mul 4108 16 (by decide))
      (in32_trunc_intCast_mul 9000 16 (by decide))]
  dsimp only
  rw [ratTrunc_intCast_mul, ratTrunc_intCast_mul, ratTrunc_intCast_mul]
  decide

/-- Witness for C2 amended at an in-range triple. -/
theorem c2_witness :
    encodeSetPosition (((1:Int):ℚ), ((2:Int):ℚ), ((3:Int):ℚ)) 16
      = .ok [77, 16, 0, 0, 0, 32, 0, 0, 0, 48, 0, 0, 0] := by
  rw [(c2_frame_layout (((1:Int):ℚ), ((2:Int):ℚ), ((3:Int):ℚ)) 16
      (in32_trunc_intCast_mul 1 16 (by decide))
      (in32_trunc_intCast_mul 2 16 (by decide))
      (in32_trunc_intCast_mul 3 16 (by decide))).1]
  dsimp only
  rw [ratTrunc_intCast_mul, ratTrunc_intCast_mul, ratTrunc_intCast_mul]
  decide

/-- C4 counterexample: after `Open` with a logfile and one
`Move((1,2,3))`, the CSV rows beyond the header are not the claimed two —
construction ends with an initial position query that logs a `get_pos`
row between `start` and `set_pos`. -/
theorem c4_counterexample :
    openThenMove "log.csv" [68, 0, 0, 0, 0, 0, 0, 0, 0, 0, 0, 0, 0, 13]
        (((1:Int):ℚ), ((2:Int):ℚ), ((3:Int):ℚ)) [13] 16
      ≠ [⟨"start", none⟩,
         ⟨"set_pos", some (((1:Int):ℚ), ((2:Int):ℚ), ((3:Int):ℚ))⟩] := by
  have hdec : decodeGetPositionReply [68, 0, 0, 0, 0, 0, 0, 0, 0, 0, 0, 0, 0, 13] (16:Int)
      = .ok (0, 0, 0) := by decide
  unfold openThenMove Sutter.init get_position
  dsimp only
  rw [hdec]
  dsimp only
  unfold set_position
  rw [encode_ok (((1:Int):ℚ), ((2:Int):ℚ), ((3:Int):ℚ)) 16
      (in32_trunc_intCast_mul 1 16 (by decide))
      (in32_trunc_intCast_mul 2 16 (by decide))
      (in32_trunc_intCast_mul 3 16 (by decide))]
  dsimp only
  intro hc
  have hlen := congrArg List.length hc
  simp at hlen

/-- C4 amended: after `Open` (header, `start` row, and the initial
position query's `get_pos` row) plus one `Move(pos)`, the log holds
exactly three rows beyond the header: `start`, `get_pos` with the
initially queried position, and `set_pos` with the commanded position. -/
theorem c4_log_rows (lf : String) (sm : Int) (reply ack : List Nat) (pos : ℚ × ℚ × ℚ)
    (h : 13 ≤ reply.length)
    (hx : in32 (ratTrunc (pos.1 * sm))) (hy : in32 (ratTrunc (pos.2.1 * sm)))
    (hz : in32 (ratTrunc (pos.2.2 * sm))) :
    ∃ p : Int × Int × Int,
      openThenMove lf reply pos ack sm
        = [⟨"start", none⟩,
           ⟨"get_pos", some ((p.1 : ℚ), (p.2.1 : ℚ), (p.2.2 : ℚ))⟩,
           ⟨"set_pos", some pos⟩] := by
  obtain ⟨p, hp⟩ := decode_long reply sm h
  refine ⟨p, ?_⟩
  unfold openThenMove Sutter.init get_position
  dsimp only
  rw [hp]
  dsimp only
  unfold set_position
  rw [encode_ok pos sm hx hy hz]
  dsimp only
  rfl

/-- Witness for C4 amended at a concrete reply and `Move((1,2,3))`. -/
theorem c4_witness :
    ∃ p : Int × Int × Int,
      openThenMove "log.csv" [68, 0, 0, 0, 0, 0, 0, 0, 0, 0, 0, 0, 0, 13]
          (((1:Int):ℚ), ((2:Int):ℚ), ((3:Int):ℚ)) [13] 16
        = [⟨"start", none⟩,
           ⟨"get_pos", some ((p.1 : ℚ), (p.2.1 : ℚ), (p.2.2 : ℚ))⟩,
           ⟨"set_pos", some (((1:Int):ℚ), ((2:Int):ℚ), ((3:Int):ℚ))⟩] :=
  c4_log_rows "log.csv" 16 [68, 0, 0, 0, 0, 0, 0, 0, 0, 0, 0, 0, 0, 13] [13]
    (((1:Int):ℚ), ((2:Int):ℚ), ((3:Int):ℚ)) (by decide)
    (in32_trunc_intCast_mul 1 16 (by decide))
    (in32_trunc_intCast_mul 2 16 (by decide))
    (in32_trunc_intCast_mul 3 16 (by decide))
